import Mathlib

/-!
Shallow embedding of `src/app.py` (personal-finance tracker, 80/10/10 rule).

The SQLite database `finanzas_personales.db` is modelled as a `Store` value
holding the two tables (`ingresos`, `gastos`) as lists of rows together with
the auto-increment counters.  REAL columns are modelled as `ℚ` (exact
arithmetic).  The TEXT column `fecha` always holds a `%Y-%m-%d` string
produced by `strftime`; it is modelled as the parsed triple `Fecha`
(year, month, day), and SQLite's lexicographic ordering of such strings is
the lexicographic order on the triple.  `datetime.now().year` is passed in
explicitly as a `currentYear` argument where the source calls it.
-/

namespace Finanzas

/-- A calendar date as stored in the `fecha` TEXT column (`%Y-%m-%d`). -/
structure Fecha where
  anio : Nat
  mes : Nat
  dia : Nat
deriving DecidableEq

/-- Lexicographic order on dates: exactly how SQLite compares the
zero-padded ISO `fecha` strings. -/
def fechaLe (a b : Fecha) : Prop :=
  a.anio < b.anio ∨ (a.anio = b.anio ∧
    (a.mes < b.mes ∨ (a.mes = b.mes ∧ a.dia ≤ b.dia)))

instance : DecidableRel fechaLe := fun a b => by
  unfold fechaLe; infer_instance

instance : IsTotal Fecha fechaLe := ⟨by
  intro a b; unfold fechaLe; omega⟩

instance : IsTrans Fecha fechaLe := ⟨by
  intro a b c; unfold fechaLe; omega⟩

/-- A row of the `ingresos` table. -/
structure Ingreso where
  id_ingreso : Nat
  fecha : Fecha
  anio : Nat
  mes : Nat
  concepto : String
  valor_total : ℚ
  porc_necesidades : ℚ
  porc_deseos : ℚ
  porc_ahorro : ℚ
  monto_necesidades : ℚ
  monto_deseos : ℚ
  monto_ahorro : ℚ
deriving DecidableEq

/-- A row of the `gastos` table. -/
structure Gasto where
  id_gasto : Nat
  fecha : Fecha
  anio : Nat
  mes : Nat
  categoria : String
  concepto : String
  valor : ℚ
deriving DecidableEq

/-- The whole database: both tables plus the AUTOINCREMENT counters. -/
structure Store where
  ingresos : List Ingreso
  gastos : List Gasto
  next_id_ingreso : Nat
  next_id_gasto : Nat
deriving DecidableEq

/-- The freshly created database (`inicializar_base_datos`):
both tables empty, AUTOINCREMENT keys starting at 1. -/
def emptyStore : Store := ⟨[], [], 1, 1⟩

/-- Python's `str.lower()` (ASCII case folding suffices for the
category labels of this app). -/
def pyLower (s : String) : String := ⟨s.data.map Char.toLower⟩

/-- Python's `str.strip()`: drop leading and trailing whitespace. -/
def pyStrip (s : String) : String :=
  ⟨((s.data.dropWhile Char.isWhitespace).reverse.dropWhile Char.isWhitespace).reverse⟩

/-- `clasificar_bucket` from `app.py`: compare `categoria.strip().lower()`;
`"deseos"` ↦ `"Deseos"`, `"ahorro"` ↦ `"Ahorro"`,
anything else ↦ `"Necesidades"`. -/
def clasificar_bucket (categoria : String) : String :=
  if pyLower (pyStrip categoria) = "deseos" then "Deseos"
  else if pyLower (pyStrip categoria) = "ahorro" then "Ahorro"
  else "Necesidades"

/-- `ORDER BY fecha DESC` on income rows (ties left in table order,
as `List.insertionSort` is stable). -/
def ingresoDesc (a b : Ingreso) : Prop := fechaLe b.fecha a.fecha

instance : DecidableRel ingresoDesc := fun a b =>
  (inferInstance : Decidable (fechaLe b.fecha a.fecha))

instance : IsTotal Ingreso ingresoDesc :=
  ⟨fun a b => (IsTotal.total (r := fechaLe) b.fecha a.fecha).imp id id⟩

instance : IsTrans Ingreso ingresoDesc :=
  ⟨fun _ b _ hab hbc => IsTrans.trans (r := fechaLe) _ b.fecha _ hbc hab⟩

/-- `ORDER BY fecha DESC` on expense rows. -/
def gastoDesc (a b : Gasto) : Prop := fechaLe b.fecha a.fecha

instance : DecidableRel gastoDesc := fun a b =>
  (inferInstance : Decidable (fechaLe b.fecha a.fecha))

instance : IsTotal Gasto gastoDesc :=
  ⟨fun a b => (IsTotal.total (r := fechaLe) b.fecha a.fecha).imp id id⟩

instance : IsTrans Gasto gastoDesc :=
  ⟨fun _ b _ hab hbc => IsTrans.trans (r := fechaLe) _ b.fecha _ hbc hab⟩

/-- `ORDER BY anio DESC` on years. -/
def natDesc (a b : Nat) : Prop := b ≤ a

instance : DecidableRel natDesc := fun a b =>
  (inferInstance : Decidable (b ≤ a))

instance : IsTotal Nat natDesc := ⟨fun a b => (Nat.le_total b a).imp id id⟩

instance : IsTrans Nat natDesc := ⟨fun _ _ _ hab hbc => le_trans hbc hab⟩

/-- `insertar_ingreso`: derives year/month from the date, computes the three
amounts as `valor_total * (porc / 100)`, and appends a fresh-id row. -/
def insertar_ingreso (fecha : Fecha) (concepto : String)
    (valor_total porc_necesidades porc_deseos porc_ahorro : ℚ)
    (s : Store) : Store :=
  let anio := fecha.anio
  let mes := fecha.mes
  let monto_necesidades := valor_total * (porc_necesidades / 100)
  let monto_deseos := valor_total * (porc_deseos / 100)
  let monto_ahorro := valor_total * (porc_ahorro / 100)
  { s with
    ingresos := s.ingresos ++
      [⟨s.next_id_ingreso, fecha, anio, mes, concepto, valor_total,
        porc_necesidades, porc_deseos, porc_ahorro,
        monto_necesidades, monto_deseos, monto_ahorro⟩]
    next_id_ingreso := s.next_id_ingreso + 1 }

/-- `insertar_gasto`: derives year/month from the date and appends a
fresh-id expense row. -/
def insertar_gasto (fecha : Fecha) (categoria concepto : String)
    (valor : ℚ) (s : Store) : Store :=
  { s with
    gastos := s.gastos ++
      [⟨s.next_id_gasto, fecha, fecha.anio, fecha.mes, categoria, concepto, valor⟩]
    next_id_gasto := s.next_id_gasto + 1 }

/-- `obtener_ingresos(anio=None, mes=None)`: WHERE clause added only when
`anio` is present (`anio`+`mes`, or `anio` alone), then `ORDER BY fecha DESC`. -/
def obtener_ingresos : Option Nat → Option Nat → Store → List Ingreso
  | some a, some m, s =>
      List.insertionSort ingresoDesc
        (s.ingresos.filter fun r => r.anio == a && r.mes == m)
  | some a, none, s =>
      List.insertionSort ingresoDesc (s.ingresos.filter fun r => r.anio == a)
  | none, _, s => List.insertionSort ingresoDesc s.ingresos

/-- `obtener_gastos(anio=None, mes=None)`: same filter modes as
`obtener_ingresos`, then `ORDER BY fecha DESC`. -/
def obtener_gastos : Option Nat → Option Nat → Store → List Gasto
  | some a, some m, s =>
      List.insertionSort gastoDesc
        (s.gastos.filter fun g => g.anio == a && g.mes == m)
  | some a, none, s =>
      List.insertionSort gastoDesc (s.gastos.filter fun g => g.anio == a)
  | none, _, s => List.insertionSort gastoDesc s.gastos

/-- `eliminar_ingreso`: `DELETE FROM ingresos WHERE id_ingreso = ?`. -/
def eliminar_ingreso (id_ingreso : Nat) (s : Store) : Store :=
  { s with ingresos := s.ingresos.filter fun r => !(r.id_ingreso == id_ingreso) }

/-- `eliminar_gasto`: `DELETE FROM gastos WHERE id_gasto = ?`. -/
def eliminar_gasto (id_gasto : Nat) (s : Store) : Store :=
  { s with gastos := s.gastos.filter fun g => !(g.id_gasto == id_gasto) }

/-- `obtener_anios_disponibles`: `SELECT DISTINCT anio FROM ingresos UNION
SELECT DISTINCT anio FROM gastos ORDER BY anio DESC`, falling back to the
current year when the result is empty. -/
def obtener_anios_disponibles (currentYear : Nat) (s : Store) : List Nat :=
  let anios := List.insertionSort natDesc
    ((s.ingresos.map Ingreso.anio ++ s.gastos.map Gasto.anio).dedup)
  if anios.isEmpty then [currentYear] else anios

/-- One figure per bucket, as in the dicts built by `resumen_buckets`. -/
structure BucketMap where
  necesidades : ℚ
  deseos : ℚ
  ahorro : ℚ
deriving DecidableEq

/-- The dict returned by `resumen_buckets`. -/
structure Resumen where
  presupuesto : BucketMap
  gastado : BucketMap
  disponible : BucketMap
deriving DecidableEq

/-- `resumen_buckets(anio, mes)` from `app.py`, including the
`if not df.empty else 0.0` guards of the source. -/
def resumen_buckets (anio mes : Nat) (s : Store) : Resumen :=
  let ingresos := obtener_ingresos (some anio) (some mes) s
  let gastos := obtener_gastos (some anio) (some mes) s
  let presupuesto : BucketMap :=
    if ingresos.isEmpty then ⟨0, 0, 0⟩
    else
      ⟨(ingresos.map Ingreso.monto_necesidades).sum,
       (ingresos.map Ingreso.monto_deseos).sum,
       (ingresos.map Ingreso.monto_ahorro).sum⟩
  let gastado : BucketMap :=
    if gastos.isEmpty then ⟨0, 0, 0⟩
    else
      ⟨((gastos.filter fun g => clasificar_bucket g.categoria == "Necesidades").map
          Gasto.valor).sum,
       ((gastos.filter fun g => clasificar_bucket g.categoria == "Deseos").map
          Gasto.valor).sum,
       0⟩
  let disponible : BucketMap :=
    ⟨presupuesto.necesidades - gastado.necesidades,
     presupuesto.deseos - gastado.deseos,
     presupuesto.ahorro⟩
  ⟨presupuesto, gastado, disponible⟩

/-- The `saldo_neto` computation of the analysis tab
(`app.py` lines 298–301): ingresos − gastos − ahorro of the period. -/
def saldo_neto (anio mes : Nat) (s : Store) : ℚ :=
  let ingresos_periodo := obtener_ingresos (some anio) (some mes) s
  let gastos_periodo := obtener_gastos (some anio) (some mes) s
  let total_ingresos := (ingresos_periodo.map Ingreso.valor_total).sum
  let total_gastos := (gastos_periodo.map Gasto.valor).sum
  let total_ahorro := (ingresos_periodo.map Ingreso.monto_ahorro).sum
  total_ingresos - total_gastos - total_ahorro

/-- The `saldo_cuenta` computation shown before saving an expense
(`app.py` lines 408–411): ingresos − gastos − ahorro of the period. -/
def saldo_cuenta (anio mes : Nat) (s : Store) : ℚ :=
  let total_ingresos := ((obtener_ingresos (some anio) (some mes) s).map
    Ingreso.valor_total).sum
  let total_gastos := ((obtener_gastos (some anio) (some mes) s).map
    Gasto.valor).sum
  let total_ahorro := ((obtener_ingresos (some anio) (some mes) s).map
    Ingreso.monto_ahorro).sum
  total_ingresos - total_gastos - total_ahorro

/-- The `saldo_cuenta_post` computation shown after saving an expense
(`app.py` lines 458–460): it subtracts only the expenses, not the
savings amount. -/
def saldo_cuenta_post (anio mes : Nat) (s : Store) : ℚ :=
  let total_ingresos_post := ((obtener_ingresos (some anio) (some mes) s).map
    Ingreso.valor_total).sum
  let total_gastos_post := ((obtener_gastos (some anio) (some mes) s).map
    Gasto.valor).sum
  total_ingresos_post - total_gastos_post

/-- The income rows of the table belonging to a period, in table order. -/
def periodIngresos (anio mes : Nat) (s : Store) : List Ingreso :=
  s.ingresos.filter fun r => r.anio == anio && r.mes == mes

/-- The expense rows of the table belonging to a period, in table order. -/
def periodGastos (anio mes : Nat) (s : Store) : List Gasto :=
  s.gastos.filter fun g => g.anio == anio && g.mes == mes

/-- A store with a single income: 2024-03-01, "Salario", 1000 split 80/10/10
(so `monto_ahorro = 100`), and no expenses. -/
def c1Store : Store :=
  insertar_ingreso ⟨2024, 3, 1⟩ "Salario" 1000 80 10 10 emptyStore

/-! ## General lemmas about the embedding -/

/-- Sorting a list does not change a mapped sum. -/
theorem sum_map_insertionSort {α : Type} (r : α → α → Prop) [DecidableRel r]
    (l : List α) (f : α → ℚ) :
    ((List.insertionSort r l).map f).sum = (l.map f).sum :=
  ((List.perm_insertionSort r l).map f).sum_eq

/-- Sorting a list does not change a mapped sum of a filtered sublist. -/
theorem sum_map_filter_insertionSort {α : Type} (r : α → α → Prop)
    [DecidableRel r] (l : List α) (p : α → Bool) (f : α → ℚ) :
    (((List.insertionSort r l).filter p).map f).sum
      = ((l.filter p).map f).sum :=
  (((List.perm_insertionSort r l).filter p).map f).sum_eq

/-- A sort is empty exactly when its input is. -/
theorem insertionSort_eq_nil_iff {α : Type} (r : α → α → Prop) [DecidableRel r]
    (l : List α) : List.insertionSort r l = [] ↔ l = [] := by
  constructor
  · intro h
    have hp := List.perm_insertionSort r l
    rw [h] at hp
    exact hp.symm.eq_nil
  · intro h
    subst h
    rfl

/-- Every row returned by `obtener_ingresos` is a row of the table. -/
theorem mem_ingresos_of_mem_obtener (a m : Option Nat) (s : Store) (r : Ingreso)
    (h : r ∈ obtener_ingresos a m s) : r ∈ s.ingresos := by
  cases a <;> cases m <;>
    first
      | exact (List.mem_insertionSort ingresoDesc).mp h
      | exact (List.mem_filter.mp ((List.mem_insertionSort ingresoDesc).mp h)).1

/-- `resumen_buckets`, rewritten as sums over the unsorted period rows. -/
theorem resumen_buckets_eq (anio mes : Nat) (s : Store) :
    resumen_buckets anio mes s =
      ⟨⟨((periodIngresos anio mes s).map Ingreso.monto_necesidades).sum,
        ((periodIngresos anio mes s).map Ingreso.monto_deseos).sum,
        ((periodIngresos anio mes s).map Ingreso.monto_ahorro).sum⟩,
       ⟨(((periodGastos anio mes s).filter fun g =>
            clasificar_bucket g.categoria == "Necesidades").map Gasto.valor).sum,
        (((periodGastos anio mes s).filter fun g =>
            clasificar_bucket g.categoria == "Deseos").map Gasto.valor).sum,
        0⟩,
       ⟨((periodIngresos anio mes s).map Ingreso.monto_necesidades).sum -
          (((periodGastos anio mes s).filter fun g =>
            clasificar_bucket g.categoria == "Necesidades").map Gasto.valor).sum,
        ((periodIngresos anio mes s).map Ingreso.monto_deseos).sum -
          (((periodGastos anio mes s).filter fun g =>
            clasificar_bucket g.categoria == "Deseos").map Gasto.valor).sum,
        ((periodIngresos anio mes s).map Ingreso.monto_ahorro).sum⟩⟩ := by
  unfold resumen_buckets obtener_ingresos obtener_gastos periodIngresos periodGastos
  dsimp only
  split
  · rename_i h1
    rw [List.isEmpty_iff, insertionSort_eq_nil_iff] at h1
    split
    · rename_i h2
      rw [List.isEmpty_iff, insertionSort_eq_nil_iff] at h2
      simp [h1, h2]
    · rename_i h2
      simp [h1, sum_map_filter_insertionSort]
  · rename_i h1
    split
    · rename_i h2
      rw [List.isEmpty_iff, insertionSort_eq_nil_iff] at h2
      simp [h2, sum_map_insertionSort]
    · rename_i h2
      simp [sum_map_insertionSort, sum_map_filter_insertionSort]

/-! ## Claims -/

/-- C1: the spec's net-balance figure is income − expenses − savings at every
site that computes it.  The `saldo_neto` and `saldo_cuenta` sites conform,
but the `saldo_cuenta_post` site (app.py line 460) omits the savings term:
on a store whose only income is 1000 split 80/10/10 in 2024-03 (savings
amount 100, no expenses) it shows 1000 while the documented formula gives
900. -/
theorem C1_saldo_cuenta_post_omite_ahorro :
    saldo_neto 2024 3 c1Store = 900 ∧
    saldo_cuenta 2024 3 c1Store = 900 ∧
    saldo_cuenta_post 2024 3 c1Store = 1000 ∧
    saldo_cuenta_post 2024 3 c1Store ≠
      ((obtener_ingresos (some 2024) (some 3) c1Store).map Ingreso.valor_total).sum -
        ((obtener_gastos (some 2024) (some 3) c1Store).map Gasto.valor).sum -
        ((obtener_ingresos (some 2024) (some 3) c1Store).map Ingreso.monto_ahorro).sum := by
  refine ⟨?_, ?_, ?_, ?_⟩ <;>
    norm_num [saldo_neto, saldo_cuenta, saldo_cuenta_post, c1Store,
      insertar_ingreso, emptyStore, obtener_ingresos, obtener_gastos]

/-- C2: `resumen_buckets` always reports `gastado.Ahorro = 0` and
`disponible.Ahorro = presupuesto.Ahorro`, and inserting an expense with
category `"Ahorro"` changes neither figure for its period. -/
theorem C2_ahorro_nunca_descontado (s : Store) (anio mes : Nat) (f : Fecha)
    (con : String) (v : ℚ) :
    (resumen_buckets anio mes s).gastado.ahorro = 0 ∧
    (resumen_buckets anio mes s).disponible.ahorro =
      (resumen_buckets anio mes s).presupuesto.ahorro ∧
    (resumen_buckets anio mes (insertar_gasto f "Ahorro" con v s)).gastado.ahorro =
      (resumen_buckets anio mes s).gastado.ahorro ∧
    (resumen_buckets anio mes (insertar_gasto f "Ahorro" con v s)).disponible.ahorro =
      (resumen_buckets anio mes s).disponible.ahorro := by
  refine ⟨?_, ?_, ?_, ?_⟩ <;>
    simp [resumen_buckets_eq, periodIngresos, insertar_gasto]

/-- C3: `resumen_buckets` computes each budget figure as the matching sum over
the period's income rows, each spent figure as the sum of the amounts of the
period's expenses classified into that bucket, each available figure as
budget − spent (budget itself for Ahorro), and returns all zeros on a period
with no rows. -/
theorem C3_resumen_formulas (s : Store) (anio mes : Nat) :
    (resumen_buckets anio mes s).presupuesto.necesidades =
      ((periodIngresos anio mes s).map Ingreso.monto_necesidades).sum ∧
    (resumen_buckets anio mes s).presupuesto.deseos =
      ((periodIngresos anio mes s).map Ingreso.monto_deseos).sum ∧
    (resumen_buckets anio mes s).presupuesto.ahorro =
      ((periodIngresos anio mes s).map Ingreso.monto_ahorro).sum ∧
    (resumen_buckets anio mes s).gastado.necesidades =
      (((periodGastos anio mes s).filter fun g =>
        clasificar_bucket g.categoria == "Necesidades").map Gasto.valor).sum ∧
    (resumen_buckets anio mes s).gastado.deseos =
      (((periodGastos anio mes s).filter fun g =>
        clasificar_bucket g.categoria == "Deseos").map Gasto.valor).sum ∧
    (resumen_buckets anio mes s).disponible.necesidades =
      (resumen_buckets anio mes s).presupuesto.necesidades -
        (resumen_buckets anio mes s).gastado.necesidades ∧
    (resumen_buckets anio mes s).disponible.deseos =
      (resumen_buckets anio mes s).presupuesto.deseos -
        (resumen_buckets anio mes s).gastado.deseos ∧
    (periodIngresos anio mes s = [] → periodGastos anio mes s = [] →
      resumen_buckets anio mes s = ⟨⟨0, 0, 0⟩, ⟨0, 0, 0⟩, ⟨0, 0, 0⟩⟩) := by
  refine ⟨?_, ?_, ?_, ?_, ?_, ?_, ?_, ?_⟩
  · simp [resumen_buckets_eq]
  · simp [resumen_buckets_eq]
  · simp [resumen_buckets_eq]
  · simp [resumen_buckets_eq]
  · simp [resumen_buckets_eq]
  · simp [resumen_buckets_eq]
  · simp [resumen_buckets_eq]
  · intro h1 h2
    rw [resumen_buckets_eq, h1, h2]
    simp

/-- C3 witness: on the empty store every figure of the summary is zero. -/
theorem C3_witness :
    resumen_buckets 2024 3 emptyStore = ⟨⟨0, 0, 0⟩, ⟨0, 0, 0⟩, ⟨0, 0, 0⟩⟩ :=
  (C3_resumen_formulas emptyStore 2024 3).2.2.2.2.2.2.2 rfl rfl

/-- C4: `clasificar_bucket` is total with no error case: after stripping and
lowercasing it maps `"deseos"` to the Deseos bucket, `"ahorro"` to Ahorro,
and everything else to Necesidades; in particular on `"Deseos"`,
`"  AHORRO "`, `"Mercado"` and `"anything-else"`. -/
theorem C4_clasificar_bucket_total (cat : String) :
    (clasificar_bucket cat = "Necesidades" ∨ clasificar_bucket cat = "Deseos" ∨
      clasificar_bucket cat = "Ahorro") ∧
    (clasificar_bucket cat = "Deseos" ↔ pyLower (pyStrip cat) = "deseos") ∧
    (clasificar_bucket cat = "Ahorro" ↔ pyLower (pyStrip cat) = "ahorro") ∧
    (clasificar_bucket cat = "Necesidades" ↔
      (pyLower (pyStrip cat) ≠ "deseos" ∧ pyLower (pyStrip cat) ≠ "ahorro")) ∧
    clasificar_bucket "Deseos" = "Deseos" ∧
    clasificar_bucket "  AHORRO " = "Ahorro" ∧
    clasificar_bucket "Mercado" = "Necesidades" ∧
    clasificar_bucket "anything-else" = "Necesidades" := by
  refine ⟨?_, ?_, ?_, ?_, by decide, by decide, by decide, by decide⟩ <;>
    · unfold clasificar_bucket
      split_ifs with h1 h2 <;> simp_all

/-- C5: `insertar_ingreso` stores the three amounts as
`valor_total * (porc / 100)`, and when the three percentages sum to 100 the
stored amounts sum exactly to the total. -/
theorem C5_montos_suman_total (s : Store) (f : Fecha) (c : String)
    (T pN pW pS : ℚ) (h : pN + pW + pS = 100) :
    ∃ r ∈ (insertar_ingreso f c T pN pW pS s).ingresos,
      r.monto_necesidades = T * (pN / 100) ∧
      r.monto_deseos = T * (pW / 100) ∧
      r.monto_ahorro = T * (pS / 100) ∧
      r.monto_necesidades + r.monto_deseos + r.monto_ahorro = T := by
  refine ⟨⟨s.next_id_ingreso, f, f.anio, f.mes, c, T, pN, pW, pS,
    T * (pN / 100), T * (pW / 100), T * (pS / 100)⟩, ?_, rfl, rfl, rfl, ?_⟩
  · exact List.mem_append_right _ (List.mem_singleton.mpr rfl)
  · have hsum : T * (pN / 100) + T * (pW / 100) + T * (pS / 100)
        = T * ((pN + pW + pS) / 100) := by ring
    rw [hsum, h]
    norm_num

/-- C5 witness: the 1000 / (80,10,10) income of the spec scenario. -/
theorem C5_witness :
    (80 : ℚ) + 10 + 10 = 100 ∧
    ∃ r ∈ (insertar_ingreso ⟨2024, 3, 1⟩ "Salario" 1000 80 10 10
        emptyStore).ingresos,
      r.monto_necesidades = 1000 * (80 / 100) ∧
      r.monto_deseos = 1000 * (10 / 100) ∧
      r.monto_ahorro = 1000 * (10 / 100) ∧
      r.monto_necesidades + r.monto_deseos + r.monto_ahorro = 1000 :=
  ⟨by norm_num,
   C5_montos_suman_total emptyStore ⟨2024, 3, 1⟩ "Salario" 1000 80 10 10
     (by norm_num)⟩

/-- C6: after `insertar_ingreso`, querying the income's period returns a row
with exactly the inserted values and the derived amounts; and after
`eliminar_ingreso id`, no query in any filter mode returns a row with that
id. -/
theorem C6_roundtrip (s : Store) (f : Fecha) (c : String) (T pN pW pS : ℚ)
    (i : Nat) (a m : Option Nat) :
    (∃ r ∈ obtener_ingresos (some f.anio) (some f.mes)
        (insertar_ingreso f c T pN pW pS s),
      r.fecha = f ∧ r.anio = f.anio ∧ r.mes = f.mes ∧ r.concepto = c ∧
      r.valor_total = T ∧ r.porc_necesidades = pN ∧ r.porc_deseos = pW ∧
      r.porc_ahorro = pS ∧ r.monto_necesidades = T * (pN / 100) ∧
      r.monto_deseos = T * (pW / 100) ∧ r.monto_ahorro = T * (pS / 100)) ∧
    ∀ r ∈ obtener_ingresos a m (eliminar_ingreso i s), r.id_ingreso ≠ i := by
  constructor
  · refine ⟨⟨s.next_id_ingreso, f, f.anio, f.mes, c, T, pN, pW, pS,
      T * (pN / 100), T * (pW / 100), T * (pS / 100)⟩, ?_,
      rfl, rfl, rfl, rfl, rfl, rfl, rfl, rfl, rfl, rfl, rfl⟩
    refine (List.mem_insertionSort ingresoDesc).mpr (List.mem_filter.mpr ⟨?_, ?_⟩)
    · exact List.mem_append_right _ (List.mem_singleton.mpr rfl)
    · simp
  · intro r hr
    have hmem : r ∈ (eliminar_ingreso i s).ingresos :=
      mem_ingresos_of_mem_obtener a m _ r hr
    have hfil := (List.mem_filter.mp hmem).2
    simpa using hfil

/-- C7: both query functions support exactly the three filter modes — no
filter (all rows), year only, year plus month — and in every mode the result
is sorted by date descending. -/
theorem C7_modos_y_orden (s : Store) (a m : Option Nat) (y mo : Nat) :
    List.Sorted ingresoDesc (obtener_ingresos a m s) ∧
    List.Sorted gastoDesc (obtener_gastos a m s) ∧
    List.Perm (obtener_ingresos none m s) s.ingresos ∧
    List.Perm (obtener_ingresos (some y) none s)
      (s.ingresos.filter fun r => r.anio == y) ∧
    List.Perm (obtener_ingresos (some y) (some mo) s)
      (s.ingresos.filter fun r => r.anio == y && r.mes == mo) ∧
    List.Perm (obtener_gastos none m s) s.gastos ∧
    List.Perm (obtener_gastos (some y) none s)
      (s.gastos.filter fun g => g.anio == y) ∧
    List.Perm (obtener_gastos (some y) (some mo) s)
      (s.gastos.filter fun g => g.anio == y && g.mes == mo) := by
  refine ⟨?_, ?_, ?_, List.perm_insertionSort _ _, List.perm_insertionSort _ _,
    ?_, List.perm_insertionSort _ _, List.perm_insertionSort _ _⟩
  · cases a <;> cases m <;> exact List.sorted_insertionSort _ _
  · cases a <;> cases m <;> exact List.sorted_insertionSort _ _
  · cases m <;> exact List.perm_insertionSort _ _
  · cases m <;> exact List.perm_insertionSort _ _

/-- C7 witness: the unfiltered query on the empty store is a permutation of
the (empty) table. -/
theorem C7_witness :
    List.Perm (obtener_ingresos none none emptyStore) emptyStore.ingresos :=
  (C7_modos_y_orden emptyStore none none 0 0).2.2.1

/-- C8: `obtener_anios_disponibles` returns the distinct years of the two
tables, without duplicates and sorted descending, and on an empty store it
returns exactly the current year. -/
theorem C8_anios_disponibles (s : Store) (cy y : Nat) :
    (obtener_anios_disponibles cy s).Nodup ∧
    List.Sorted natDesc (obtener_anios_disponibles cy s) ∧
    (s.ingresos = [] → s.gastos = [] → obtener_anios_disponibles cy s = [cy]) ∧
    ((s.ingresos ≠ [] ∨ s.gastos ≠ []) →
      (y ∈ obtener_anios_disponibles cy s ↔
        y ∈ s.ingresos.map Ingreso.anio ∨ y ∈ s.gastos.map Gasto.anio)) := by
  refine ⟨?_, ?_, ?_, ?_⟩
  · unfold obtener_anios_disponibles
    dsimp only
    split
    · simp
    · exact (List.perm_insertionSort natDesc _).nodup_iff.mpr
        (List.nodup_dedup _)
  · unfold obtener_anios_disponibles
    dsimp only
    split
    · exact List.sorted_singleton cy
    · exact List.sorted_insertionSort _ _
  · intro h1 h2
    simp [obtener_anios_disponibles, h1, h2]
  · intro h
    have hne : s.ingresos.map Ingreso.anio ++ s.gastos.map Gasto.anio ≠ [] := by
      intro hc
      rcases List.append_eq_nil.mp hc with ⟨hi, hg⟩
      rw [List.map_eq_nil_iff] at hi hg
      rcases h with h | h <;> exact h (by assumption)
    unfold obtener_anios_disponibles
    dsimp only
    split
    · rename_i hemp
      rw [List.isEmpty_iff, insertionSort_eq_nil_iff] at hemp
      exact absurd (by rwa [List.dedup_eq_nil] at hemp) hne
    · rw [List.mem_insertionSort, List.mem_dedup, List.mem_append]

/-- C8 witness: on the empty store the available years are exactly the
current year. -/
theorem C8_witness : obtener_anios_disponibles 2025 emptyStore = [2025] :=
  (C8_anios_disponibles emptyStore 2025 0).2.2.1 rfl rfl

/-- C9: deleting an id that is in neither table is a silent no-op: the store
is left completely unchanged and no error is signalled (both functions are
total). -/
theorem C9_delete_inexistente_noop (s : Store) (i j : Nat)
    (hi : ∀ r ∈ s.ingresos, r.id_ingreso ≠ i)
    (hj : ∀ g ∈ s.gastos, g.id_gasto ≠ j) :
    eliminar_ingreso i s = s ∧ eliminar_gasto j s = s := by
  constructor
  · unfold eliminar_ingreso
    have hf : s.ingresos.filter (fun r => !(r.id_ingreso == i)) = s.ingresos :=
      List.filter_eq_self.mpr fun r hr => by simpa using hi r hr
    rw [hf]
  · unfold eliminar_gasto
    have hf : s.gastos.filter (fun g => !(g.id_gasto == j)) = s.gastos :=
      List.filter_eq_self.mpr fun g hg => by simpa using hj g hg
    rw [hf]

/-- C9 witness: deleting id 7 from the empty store changes nothing. -/
theorem C9_witness :
    eliminar_ingreso 7 emptyStore = emptyStore ∧
    eliminar_gasto 7 emptyStore = emptyStore :=
  C9_delete_inexistente_noop emptyStore 7 7 (by simp [emptyStore])
    (by simp [emptyStore])

/-- C10: when the year argument is absent, a supplied month is silently
ignored: the query behaves exactly like the fully unfiltered one. -/
theorem C10_mes_ignorado_sin_anio (s : Store) (m : Nat) :
    obtener_ingresos none (some m) s = obtener_ingresos none none s ∧
    obtener_gastos none (some m) s = obtener_gastos none none s :=
  ⟨rfl, rfl⟩

end Finanzas
